import Mathlib

/-
Verification of the arm-image-installer pipeline.

The Python sources (arm-image-installer.py and modules/{boards,config,
partition,resize,uboot}.py) are shallowly embedded below.  Pure string
manipulation is modelled on `List Char` (Python `str.split`, `str.strip`,
`str.replace`, substring membership, prefix tests), and every effectful
component is modelled as a function from its inputs plus an explicit
description of the outside world (file contents, external-command results)
to a trace of events (`Event`) paired with an `Except`-style outcome, where
`Except.error` stands for an uncaught Python exception or `sys.exit`.
Process-local scratch state (the `tempfile.TemporaryDirectory` mount-point
directories of `main`) is not treated as an observable filesystem write:
it never touches the target media and is removed when the process ends.
-/

namespace ArmInstaller

/-! ## Python string primitives on `List Char` -/

/-- The characters `str.strip()` and `str.split()` treat as whitespace. -/
def isPySpace (c : Char) : Bool :=
  c = ' ' || c = '\t' || c = '\n' || c = '\r' || c = '\x0b' || c = '\x0c'

/-- Python `str.strip()`: drop whitespace from both ends. -/
def pyStrip (l : List Char) : List Char :=
  ((l.dropWhile isPySpace).reverse.dropWhile isPySpace).reverse

/-- Python `needle in hay` substring test. -/
def containsSub (hay needle : List Char) : Bool :=
  if needle.isPrefixOf hay then true
  else
    match hay with
    | [] => false
    | _ :: t => containsSub t needle

/-- Worker for `replaceAll`, structurally recursive on a fuel argument so
that it reduces definitionally.  Every step consumes at least one character
of the scanned list (a non-empty matched pattern consumes `pat.length ≥ 1`),
so fuel `s.length` is always sufficient and the fuel-exhausted arm is
unreachable from `replaceAll`. -/
def replaceAllAux (pat rep : List Char) : Nat → List Char → List Char
  | 0, s => s
  | _ + 1, [] => []
  | fuel + 1, c :: t =>
    if pat.isPrefixOf (c :: t) && !pat.isEmpty then
      rep ++ replaceAllAux pat rep fuel ((c :: t).drop pat.length)
    else
      c :: replaceAllAux pat rep fuel t

/-- Python `s.replace(pat, rep)`: replace every occurrence, scanning left to
right without rescanning the replacement text (an empty pattern never
occurs in the modelled calls and is treated as matching nowhere). -/
def replaceAll (pat rep s : List Char) : List Char := replaceAllAux pat rep s.length s

/-- Python `s.split(":")` (separator given, so empty fields are kept). -/
def splitColon : List Char → List (List Char)
  | [] => [[]]
  | c :: t =>
    if c = ':' then [] :: splitColon t
    else
      match splitColon t with
      | [] => [[c]]
      | f :: fs => (c :: f) :: fs

/-- Python `":".join(fields)`. -/
def joinColon : List (List Char) → List Char
  | [] => []
  | [f] => f
  | f :: g :: fs => f ++ ':' :: joinColon (g :: fs)

/-- Split on a newline character (helper for Python `splitlines`). -/
def splitNL : List Char → List (List Char)
  | [] => [[]]
  | c :: t =>
    if c = '\n' then [] :: splitNL t
    else
      match splitNL t with
      | [] => [[c]]
      | f :: fs => (c :: f) :: fs

/-- Python `s.splitlines()` (the only line break appearing in the modelled
data is the newline; Python returns `[]` on the empty string and drops a
trailing empty segment). -/
def pySplitlines (l : List Char) : List (List Char) :=
  if l = [] then []
  else
    let parts := splitNL l
    if parts.getLast? = some [] then parts.dropLast else parts

/-- Python `s.split()` with no separator: split on whitespace runs,
discarding empty fields. -/
def pySplitWs (l : List Char) : List (List Char) :=
  (l.splitOnP isPySpace).filter (fun f => !f.isEmpty)

/-- Python `s.lower()` for the ASCII data handled here. -/
def lowerL (l : List Char) : List Char := l.map Char.toLower

/-- Python `s.endswith(t)`. -/
def endsWithL (s t : List Char) : Bool := t.isSuffixOf s

/-- Substring test lifted to `String`. -/
def containsS (hay needle : String) : Bool := containsSub hay.data needle.data

/-- Python `s.replace(pat, rep)` lifted to `String`. -/
def pyReplaceS (s pat rep : String) : String := String.mk (replaceAll pat.data rep.data s.data)

/-- Python `s.strip()` lifted to `String`. -/
def pyStripS (s : String) : String := String.mk (pyStrip s.data)

/-! ## Observable effects

Each effectful source function is modelled as returning the list of
observable events it performs, in order, together with an outcome.
`Except.error` models an uncaught Python exception or a `sys.exit` with a
non-zero status; `Except.ok` models normal return (and, for the whole
process, exit status zero). -/

/-- Levels of the Python `logging` calls appearing in the sources. -/
inductive LogLevel
  | info
  | warning
  | error
  | debug
deriving DecidableEq

/-- An observable action of the program.  `fsWrite` is a write (create,
append, rewrite, chmod) of the named path on the target media or the
mounted image filesystems; `mount`/`unmount` are the mount(8)/umount(8)
invocations; `extCall` is any other external command, flagged with whether
it mutates state. -/
inductive Event
  | log (lvl : LogLevel) (msg : String)
  | fsWrite (path : String)
  | mount (dev mp : String)
  | unmount (mp : String)
  | extCall (cmd : List String) (mutating : Bool)
deriving DecidableEq

/-- Whether an event mutates the filesystem, the device, or external state. -/
def Event.isMutating : Event → Bool
  | .log _ _ => false
  | .fsWrite _ => true
  | .mount _ _ => true
  | .unmount _ => true
  | .extCall _ m => m

/-- Whether an event is a log message at all. -/
def Event.isLog : Event → Bool
  | .log _ _ => true
  | _ => false

/-- Sequential composition: run `a`; if it succeeded, run `b` (both traces
are data here, matching the strictly sequential source). -/
def andThen (a b : List Event × Except String Unit) : List Event × Except String Unit :=
  match a with
  | (ev, .ok _) => (ev ++ b.1, b.2)
  | (ev, .error e) => (ev, .error e)

/-- Append a log event to a successful outcome. -/
def thenLog (a : List Event × Except String Unit) (e : Event) : List Event × Except String Unit :=
  match a with
  | (ev, .ok u) => (ev ++ [e], .ok u)
  | x => x

/-- `" ".join(cmd)` as used when logging commands. -/
def joinSpace (cmd : List String) : String := String.intercalate " " cmd

/-! ## modules/boards.py -/

/-- `BOARD_ALIASES.get(target, target)` of modules/boards.py: the alias
dictionary has five entries; an unknown name resolves to itself. -/
def resolve_board (t : String) : String :=
  if t = "rpi4" then "RaspberryPi4-64"
  else if t = "pi4" then "RaspberryPi4-64"
  else if t = "rpi3" then "RaspberryPi3-64"
  else if t = "pi3" then "RaspberryPi3-64"
  else if t = "x13s" then "Thinkpad-X13s"
  else t

/-- The body of `load_supported_boards` once the file was opened: lines are
stripped; non-empty lines not ending in "Devices:" contribute their
whitespace-separated words.  The Python code collects them into a set; only
membership is ever consulted, so a list is an adequate model. -/
def parse_supported (contents : String) : List String :=
  (splitNL contents.data).foldl
    (fun acc line =>
      let clean := pyStrip line
      if !clean.isEmpty && !endsWithL clean "Devices:".data then
        acc ++ (pySplitWs clean).map String.mk
      else acc)
    []

/-- `load_supported_boards`, with the SUPPORTED-BOARDS file contents as an
explicit input (`none` = file does not exist). -/
def load_supported_boards (file : Option String) : List Event × List String :=
  match file with
  | none => ([Event.log .warning "SUPPORTED-BOARDS file not found. No board validation applied."], [])
  | some contents => ([], parse_supported contents)

/-- `validate_board`: raises `SystemExit(1)` (modelled as `Except.error`)
when the loaded board list is non-empty and the resolved name is absent. -/
def validate_board (target : String) (file : Option String) : List Event × Except String Unit :=
  let canonical := resolve_board target
  let evb := load_supported_boards file
  if !evb.2.isEmpty && !(evb.2.contains canonical) then
    (evb.1 ++ [Event.log .error ("Unsupported board: " ++ target ++ " (resolved as " ++ canonical ++ ")"),
               Event.log .error "Run with --listboards to see supported boards."],
     .error "SystemExit: 1")
  else (evb.1, .ok ())

/-! ## modules/uboot.py -/

/-- uboot.py keeps its own copy of the alias dictionary (same five
entries); `install_uboot` and `get_default_console` normalise through it. -/
def uboot_normalize (t : String) : String :=
  if t = "rpi4" then "RaspberryPi4-64"
  else if t = "pi4" then "RaspberryPi4-64"
  else if t = "rpi3" then "RaspberryPi3-64"
  else if t = "pi3" then "RaspberryPi3-64"
  else if t = "x13s" then "Thinkpad-X13s"
  else t

/-- One entry of `BOARD_UBOOT_MAP`: bootloader binary name and the `seek`
offset in 1024-byte blocks. -/
structure UbootEntry where
  filename : String
  seek : Nat
deriving DecidableEq

/-- `BOARD_UBOOT_MAP.get(board)`: boards mapped to `None` in the source
(Raspberry Pi and X13s, which need no raw bootloader write) and boards
absent from the dictionary both yield `none`, exactly as `dict.get`. -/
def BOARD_UBOOT_MAP (b : String) : Option UbootEntry :=
  if b = "pine64_plus" then some ⟨"u-boot-sunxi-with-spl.bin", 8⟩
  else if b = "nanopi_a64" then some ⟨"u-boot-sunxi-with-spl.bin", 8⟩
  else if b = "bananapi_m64" then some ⟨"u-boot-sunxi-with-spl.bin", 8⟩
  else if b = "sopine_baseboard" then some ⟨"u-boot-sunxi-with-spl.bin", 8⟩
  else if b = "rockpro64-rk3399" then some ⟨"idbloader.img", 64⟩
  else if b = "nanopi-r4s-rk3399" then some ⟨"idbloader.img", 64⟩
  else if b = "rock-pi-4-rk3399" then some ⟨"idbloader.img", 64⟩
  else if b = "beagleplay" then some ⟨"tiboot3.bin", 64⟩
  else none

/-- The dd invocation built by `install_uboot`: block size 1024 bytes and
`seek` counted in those blocks, so the binary lands at byte offset
`1024 * seek`; `conv=fsync` forces a sync on completion. -/
def dd_cmd (src dst : String) (seek : Nat) : List String :=
  ["dd", "if=" ++ src, "of=" ++ dst, "bs=1024", "seek=" ++ toString seek, "conv=fsync"]

/-- `install_uboot`.  `imageHas`/`hostHas` say whether the binary exists at
the in-image respectively host candidate path; `ddOk` is the dd exit
status. -/
def install_uboot (target media root_mount : String)
    (dry_run imageHas hostHas ddOk : Bool) : List Event × Except String Unit :=
  let normalized := uboot_normalize target
  match BOARD_UBOOT_MAP normalized with
  | none =>
    ([Event.log .info ("No U-Boot installation required for board " ++ normalized ++ ". Skipping.")], .ok ())
  | some entry =>
    let image_path := root_mount ++ "/usr/share/uboot/" ++ normalized ++ "/" ++ entry.filename
    let host_path := "/usr/share/uboot/" ++ normalized ++ "/" ++ entry.filename
    if imageHas || hostHas then
      let uboot_bin := if imageHas then image_path else host_path
      let found_ev :=
        if imageHas then Event.log .info ("Found U-Boot inside image at " ++ uboot_bin)
        else Event.log .info ("Found U-Boot on host at " ++ uboot_bin)
      let plan_ev := Event.log .info ("Writing U-Boot " ++ entry.filename ++ " to " ++ media
                        ++ " at offset seek=" ++ toString entry.seek)
      if dry_run then
        ([found_ev, plan_ev,
          Event.log .info ("[DRY-RUN] Would execute: dd if=" ++ uboot_bin ++ " of=" ++ media
                        ++ " bs=1024 seek=" ++ toString entry.seek)], .ok ())
      else if ddOk then
        ([found_ev, plan_ev, Event.extCall (dd_cmd uboot_bin media entry.seek) true,
          Event.log .info "U-Boot written successfully."], .ok ())
      else
        ([found_ev, plan_ev, Event.extCall (dd_cmd uboot_bin media entry.seek) true,
          Event.log .error "Failed to write U-Boot with dd"], .error "SystemExit: 1")
    else
      ([Event.log .error ("Required U-Boot binary " ++ entry.filename ++ " not found for board "
            ++ normalized ++ "."),
        Event.log .error "Try: sudo dnf install uboot-images-armv8"], .error "SystemExit: 1")

/-- `get_default_console(target, image_path)`: only the RaspberryPi4-64
board (after alias normalisation) gets a ttyS console, chosen by whether
the image path mentions IoT or Server; every other board gets ttyAMA0. -/
def get_default_console (target image_path : String) : String :=
  let normalized := uboot_normalize target
  if normalized = "RaspberryPi4-64" then
    if containsS image_path "IoT" || containsS image_path "Server" then "ttyS0,115200"
    else "ttyS1,115200"
  else "ttyAMA0,115200"

/-! ## modules/partition.py -/

/-- Whether any of the three allow-listed device-path classes is a prefix
of the given path (`SAFE_DEVICE_PREFIXES`). -/
def safeDevicePath (device : String) : Bool :=
  "/dev/sd".data.isPrefixOf device.data
    || "/dev/mmcblk".data.isPrefixOf device.data
    || "/dev/nvme".data.isPrefixOf device.data

/-- `validate_media_device`: read-only checks, each failure a `sys.exit`.
`deviceExists` models `os.path.exists`; `mountedParts` models the device
paths reported by `psutil.disk_partitions(all=True)`. -/
def validate_media_device (device : String) (deviceExists : Bool)
    (mountedParts : List String) : List Event × Except String Unit :=
  if !safeDevicePath device then
    ([], .error ("ERROR: The specified media device " ++ device
          ++ " does not appear to be a valid removable device."))
  else if !deviceExists then
    ([], .error ("ERROR: Target device " ++ device ++ " does not exist."))
  else
    match mountedParts.find? (fun p => device.data.isPrefixOf p.data) with
    | some p => ([], .error ("ERROR: " ++ device ++ " appears to be mounted or in use: " ++ p))
    | none => ([], .ok ())

/-- The label-scanning loop of `find_partitions` over the lsblk stdout:
each stripped output line is whitespace-split into a partition name and an
optional label; a label containing "boot" (case-insensitively) sets the
boot candidate, otherwise one containing "root" sets the root candidate
(an `elif` in the source), later lines overriding earlier ones. -/
def parse_partitions (out : String) : Option String × Option String :=
  (pySplitlines (pyStrip out.data)).foldl
    (fun acc line =>
      match pySplitWs (pyStrip line) with
      | [] => acc
      | name :: restParts =>
        let label := match restParts with
          | [] => ([] : List Char)
          | lab :: _ => lab
        if containsSub (lowerL label) "boot".data then (some ("/dev/" ++ String.mk name), acc.2)
        else if containsSub (lowerL label) "root".data then (acc.1, some ("/dev/" ++ String.mk name))
        else acc)
    (none, none)

/-- `find_partitions`.  The lsblk invocation runs with `check=True`, so a
non-zero exit raises `CalledProcessError` (the `.error` branch); on
success, if either candidate is missing the Fedora-layout fallback
`(media ++ "2", media ++ "3")` is returned. -/
def find_partitions (media : String) (lsblkOut : Except String String) :
    List Event × Except String (String × String) :=
  let callEv := Event.extCall ["lsblk", "-ln", "-o", "NAME,PARTLABEL", media] false
  match lsblkOut with
  | .error e => ([callEv], .error e)
  | .ok out =>
    match parse_partitions out with
    | (some bp, some rp) => ([callEv], .ok (bp, rp))
    | _ => ([callEv], .ok (media ++ "2", media ++ "3"))

/-- `grow_partition`: parted resizepart 3 100%; under dry-run only intent
is logged; a parted failure is logged and re-raised. -/
def grow_partition (device : String) (dry_run partedOk : Bool) : List Event × Except String Unit :=
  let cmd := ["parted", "--script", device, "resizepart", "3", "100%"]
  let intro := Event.log .info ("Resizing partition 3 on " ++ device ++ " to fill device")
  if dry_run then
    ([intro, Event.log .info ("[DRY-RUN] Would run: " ++ joinSpace cmd)], .ok ())
  else if partedOk then
    ([intro, Event.extCall cmd true,
      Event.log .info "Partition 3 successfully resized to fill device"], .ok ())
  else
    ([intro, Event.extCall cmd true,
      Event.log .error "Failed to resize partition 3"], .error "CalledProcessError: parted")

/-- The `mounted_partition` context manager applied to a body.  The body is
supplied as the trace it produces together with its outcome (an `.error`
models the body raising).  In the wet path the mount runs first
(`check=True`: its failure skips body and unmount); the unmount sits in a
`finally:` block with `check=True`, so it always runs after the body and,
when it fails, its `CalledProcessError` is what propagates, replacing any
in-flight body exception (ordinary Python `finally` semantics). -/
def mounted_partition (device mount_point : String) (dry_run : Bool)
    (mountOk umountOk : Bool) (body : List Event × Except String Unit) :
    List Event × Except String Unit :=
  if dry_run then
    let pre := [Event.log .info ("[DRY-RUN] Would mount " ++ device ++ " to " ++ mount_point)]
    match body with
    | (bev, .ok u) =>
      (pre ++ bev ++ [Event.log .info ("[DRY-RUN] Would unmount " ++ mount_point)], .ok u)
    | (bev, .error e) => (pre ++ bev, .error e)
  else if !mountOk then
    ([Event.mount device mount_point], .error ("CalledProcessError: mount " ++ device))
  else if umountOk then
    (Event.mount device mount_point :: body.1 ++ [Event.unmount mount_point], body.2)
  else
    (Event.mount device mount_point :: body.1 ++ [Event.unmount mount_point],
     .error ("CalledProcessError: umount " ++ mount_point))

/-! ## modules/resize.py -/

/-- Classification of the external commands issued through `safe_run` and
its callers: the probing tools only read; everything else mutates. -/
def cmdMutating (cmd : List String) : Bool :=
  match cmd with
  | "blkid" :: _ => false
  | "findmnt" :: _ => false
  | "lsblk" :: _ => false
  | _ => true

/-- `safe_run` for the non-capturing callers: dry-run logs intent and
returns; a failure logs and `sys.exit`s. -/
def safe_run (cmd : List String) (dry_run cmdOk : Bool) : List Event × Except String Unit :=
  if dry_run then
    ([Event.log .info ("[DRY-RUN] Would run: " ++ joinSpace cmd)], .ok ())
  else if cmdOk then
    ([Event.log .info ("Running: " ++ joinSpace cmd), Event.extCall cmd (cmdMutating cmd)], .ok ())
  else
    ([Event.log .info ("Running: " ++ joinSpace cmd), Event.extCall cmd (cmdMutating cmd),
      Event.log .error ("Command failed: " ++ joinSpace cmd)], .error "ERROR: Command failed")

/-- `detect_filesystem_type`: under dry-run it logs and returns the
simulated value "ext4" without running anything; otherwise it runs blkid
through `safe_run` (capturing) and returns the stripped stdout. -/
def detect_filesystem_type (device : String) (dry_run : Bool)
    (blkidOut : Except String String) : List Event × Except String String :=
  if dry_run then
    ([Event.log .info ("[DRY-RUN] Would detect filesystem type on " ++ device)], .ok "ext4")
  else
    let cmd := ["blkid", "-o", "value", "-s", "TYPE", device]
    match blkidOut with
    | .error e =>
      ([Event.log .info ("Running: " ++ joinSpace cmd), Event.extCall cmd (cmdMutating cmd),
        Event.log .error ("Command failed: " ++ joinSpace cmd)], .error e)
    | .ok out =>
      let fs := pyStripS out
      ([Event.log .info ("Running: " ++ joinSpace cmd), Event.extCall cmd (cmdMutating cmd),
        Event.log .info ("Detected filesystem type on " ++ device ++ ": " ++ fs)], .ok fs)

/-- `find_btrfs_mountpoint`: dry-run simulates "/mnt"; otherwise findmnt is
run and an empty stripped stdout is a fatal error. -/
def find_btrfs_mountpoint (device : String) (dry_run : Bool)
    (findmntOut : Except String String) : List Event × Except String String :=
  if dry_run then
    ([Event.log .info ("[DRY-RUN] Would detect btrfs mountpoint for " ++ device)], .ok "/mnt")
  else
    let cmd := ["findmnt", "-n", "-o", "TARGET", device]
    match findmntOut with
    | .error e =>
      ([Event.log .info ("Running: " ++ joinSpace cmd), Event.extCall cmd (cmdMutating cmd),
        Event.log .error ("Command failed: " ++ joinSpace cmd)], .error e)
    | .ok out =>
      let mp := pyStripS out
      if mp.data.isEmpty then
        ([Event.log .info ("Running: " ++ joinSpace cmd), Event.extCall cmd (cmdMutating cmd)],
         .error ("ERROR: Unable to locate btrfs mountpoint for " ++ device))
      else
        ([Event.log .info ("Running: " ++ joinSpace cmd), Event.extCall cmd (cmdMutating cmd),
          Event.log .info ("Detected btrfs mountpoint for " ++ device ++ ": " ++ mp)], .ok mp)

/-- Outcomes of the external tools that `resize_root_partition` may
invoke. -/
structure ResizeWorld where
  blkidOut : Except String String
  findmntOut : Except String String
  e2fsckOk : Bool
  resize2fsOk : Bool
  xfsOk : Bool
  btrfsOk : Bool

/-- `resize_root_partition`: detect the filesystem type, then dispatch to
the type-specific growth commands; an unrecognised type is a fatal
error. -/
def resize_root_partition (device : String) (dry_run : Bool) (w : ResizeWorld) :
    List Event × Except String Unit :=
  match detect_filesystem_type device dry_run w.blkidOut with
  | (ev, .error e) => (ev, .error e)
  | (ev, .ok fs) =>
    if fs = "ext4" then
      thenLog (andThen (ev, .ok ())
          (andThen (safe_run ["e2fsck", "-f", "-y", device] dry_run w.e2fsckOk)
                   (safe_run ["resize2fs", device] dry_run w.resize2fsOk)))
        (Event.log .info ("ext4 filesystem resize completed successfully on " ++ device))
    else if fs = "xfs" then
      thenLog (andThen (ev, .ok ()) (safe_run ["xfs_growfs", device] dry_run w.xfsOk))
        (Event.log .info ("xfs filesystem resize completed successfully on " ++ device))
    else if fs = "btrfs" then
      match find_btrfs_mountpoint device dry_run w.findmntOut with
      | (ev2, .error e) => (ev ++ ev2, .error e)
      | (ev2, .ok mp) =>
        thenLog (andThen (ev ++ ev2, .ok ())
            (safe_run ["btrfs", "filesystem", "resize", "max", mp] dry_run w.btrfsOk))
          (Event.log .info ("btrfs filesystem resize completed successfully on " ++ device))
    else (ev, .error ("ERROR: Unsupported filesystem type " ++ fs))

/-! ## modules/config.py -/

/-- The user-supplied options threaded through the pipeline (the fields of
the parsed `argparse` namespace that the core reads; the UI-only flags
`--listboards`, `--assumeyes` and `--debug` are consumed before the
pipeline starts and are not modelled).  An absent optional string argument
is `none`; the source treats an empty `--args` string as absent too, so
`none` covers both. -/
structure Args where
  image : String
  media : String
  target : String
  addkey : Option String
  norootpass : Bool
  relabel : Bool
  resizefs : Bool
  wifi_ssid : Option String
  wifi_pass : Option String
  wifi_security : String
  addconsole : Bool
  extra_args : Option String
  showboot : Bool
  sysrq : Bool
  ign_url : Option String
  dry_run : Bool

/-- The per-line transform of the `--norootpass` shadow rewrite: a line
starting with "root:" is replaced by `"root::" + ":".join(fields[2:])`;
every other line is written back unchanged. -/
def removeRootPassLine (line : List Char) : List Char :=
  if "root:".data.isPrefixOf line then
    "root::".data ++ joinColon ((splitColon line).drop 2)
  else line

/-- The SSH-key target directory chosen by `apply_post_write_configs`. -/
def ssh_dir_for (root_mount : String) (is_iot : Bool) : String :=
  if is_iot then root_mount ++ "/var/home/root/.ssh"
  else root_mount ++ "/root/.ssh"

/-- `apply_post_write_configs`: SSH key injection, root password removal,
SELinux relabel marker, in that order; each step logs intent only under
dry-run.  The writes are modelled as events on the affected paths (the
rewritten shadow content is the pure `removeRootPassLine` map, proved
about separately); the mounted filesystem is writable, so the steps
succeed. -/
def apply_post_write_configs (root_mount : String) (a : Args) (is_iot dry_run : Bool) :
    List Event × Except String Unit :=
  let ssh_dir := ssh_dir_for root_mount is_iot
  let authorized_keys := ssh_dir ++ "/authorized_keys"
  let evKey : List Event :=
    match a.addkey with
    | none => []
    | some _ =>
      if dry_run then [Event.log .info ("[DRY-RUN] Would inject SSH key into " ++ authorized_keys)]
      else [Event.fsWrite ssh_dir, Event.fsWrite authorized_keys,
            Event.log .info ("SSH public key injected into " ++ authorized_keys),
            Event.log .info "SSH key added to root account."]
  let evPass : List Event :=
    if a.norootpass then
      if dry_run then
        [Event.log .info ("[DRY-RUN] Would remove root password in " ++ root_mount ++ "/etc/shadow")]
      else [Event.fsWrite (root_mount ++ "/etc/shadow"),
            Event.log .info "Root password removed successfully."]
    else []
  let evRel : List Event :=
    if a.relabel then
      if dry_run then
        [Event.log .info ("[DRY-RUN] Would create SELinux autorelabel marker at "
              ++ root_mount ++ "/.autorelabel")]
      else [Event.fsWrite (root_mount ++ "/.autorelabel"),
            Event.log .info "SELinux relabel marker created successfully."]
    else []
  (Event.log .info "Applying post-write configuration..."
     :: evKey ++ evPass ++ evRel ++ [Event.log .info "Configuration complete."], .ok ())

/-- The single-line kernel-command-line mutation steps, in source order. -/
def strip_quiet_step (showboot : Bool) (l : List Char) : List Char :=
  if showboot then replaceAll " quiet".data [] (replaceAll " rhgb".data [] l) else l

/-- Console append: a no-op unless requested and "console=" is absent. -/
def add_console_step (addconsole : Bool) (console l : List Char) : List Char :=
  if addconsole && !containsSub l "console=".data then
    l ++ " console=".data ++ console
  else l

/-- Extra kernel arguments append. -/
def extra_args_step (extra : Option String) (l : List Char) : List Char :=
  match extra with
  | some x => l ++ ' ' :: x.data
  | none => l

/-- Sysrq-enable append. -/
def sysrq_step (sysrq : Bool) (l : List Char) : List Char :=
  if sysrq then l ++ " sysrq_always_enabled=1".data else l

/-- The per-line transform of the boot-entry rewrite loop in
`apply_bootloader_configs`: an "options" line is stripped, mutated by the
four steps in order, and given back its final newline; any other line is
written back unchanged (it keeps the newline it was read with). -/
def process_entry_line (showboot addconsole : Bool) (extra : Option String) (sysrq : Bool)
    (target image : String) (line : List Char) : List Char :=
  if "options".data.isPrefixOf line then
    sysrq_step sysrq
      (extra_args_step extra
        (add_console_step addconsole (get_default_console target image).data
          (strip_quiet_step showboot (pyStrip line)))) ++ ['\n']
  else line

/-- The ignition-URL block of `apply_bootloader_configs`: applies only to
IoT images; rewrites the marker file content by `str.replace` of "true";
a missing marker file or a non-IoT image is a logged warning, never an
error.  Returns the events plus the marker file content afterwards. -/
def ignition_step (boot_mount : String) (ign_url : Option String) (is_iot dry_run : Bool)
    (ignContent : Option String) : List Event × Option String :=
  match ign_url with
  | none => ([], ignContent)
  | some url =>
    if is_iot then
      let ign_file := boot_mount ++ "/ignition.firstboot"
      if dry_run then
        ([Event.log .info ("[DRY-RUN] Would modify " ++ ign_file ++ " to inject ignition URL")],
         ignContent)
      else
        match ignContent with
        | some content =>
          ([Event.fsWrite ign_file,
            Event.log .info ("Ignition URL successfully injected into " ++ ign_file ++ ".")],
           some (pyReplaceS content "true"
                  ("true ignition.firstboot=1 ignition.config.url=" ++ url)))
        | none =>
          ([Event.log .warning ("Ignition firstboot file " ++ ign_file
                ++ " not found. Skipping ignition injection.")], none)
    else
      ([Event.log .warning "Ignition URL provided but image is not IoT. Ignition injection skipped."],
       ignContent)

/-- `apply_bootloader_configs`: rewrite every file under loader/entries
(soft warning if the directory is missing), then the ignition block, then
the Wi-Fi profile.  `entries` lists the entry file names (`none` = the
directory does not exist); the per-file content rewrite is the pure
`process_entry_line` map, proved about separately. -/
def apply_bootloader_configs (boot_mount : String) (a : Args) (is_iot dry_run : Bool)
    (entries : Option (List String)) (ignContent : Option String) :
    List Event × Except String Unit :=
  let loader_dir := boot_mount ++ "/loader/entries"
  let evEntries : List Event :=
    if dry_run then
      [Event.log .info ("[DRY-RUN] Would modify bootloader entries in " ++ loader_dir)]
    else
      match entries with
      | some es =>
        (es.map (fun e => Event.fsWrite (loader_dir ++ "/" ++ e)))
          ++ [Event.log .info "Bootloader kernel arguments updated successfully."]
      | none =>
        [Event.log .warning ("Bootloader entries directory " ++ loader_dir
              ++ " not found. Skipping kernel argument injection.")]
  let evIgn := (ignition_step boot_mount a.ign_url is_iot dry_run ignContent).1
  let evWifi : List Event :=
    match a.wifi_ssid with
    | none => []
    | some _ =>
      let nm_file := boot_mount ++ "/wifi-credentials.nmconnection"
      if dry_run then
        [Event.log .info ("[DRY-RUN] Would create Wi-Fi configuration at " ++ nm_file)]
      else
        [Event.fsWrite nm_file, Event.log .info ("Wi-Fi credentials written to " ++ nm_file)]
  (Event.log .info "Applying bootloader configuration..." :: evEntries ++ evIgn ++ evWifi, .ok ())

/-! ## arm-image-installer.py -/

/-- `os.path.basename` for the POSIX paths handled here: the characters
after the last slash. -/
def basename (p : String) : String :=
  String.mk (p.data.foldl (fun acc c => if c = '/' then [] else acc ++ [c]) [])

/-- `is_iot_image`: the basename contains the case-sensitive substring
"IoT". -/
def is_iot_image (image_path : String) : Bool := containsS (basename image_path) "IoT"

/-- `validate_image_format` as a predicate: .xz, .raw, or an
extension-free basename is accepted; anything else is a `sys.exit`. -/
def formatOk (image_path : String) : Bool :=
  endsWithL image_path.data ".xz".data
    || endsWithL image_path.data ".raw".data
    || !containsSub (basename image_path).data ".".data

/-- `stream_write_image`: format validation first (even under dry-run);
then either the intent log or the full-device raw copy (the byte stream
copy is one `fsWrite` of the device). -/
def stream_write_image (image device : String) (dry_run : Bool) : List Event × Except String Unit :=
  if !formatOk image then
    ([], .error "ERROR: Unsupported image format. Only .xz compressed or raw images are supported.")
  else if dry_run then
    ([Event.log .info ("[DRY-RUN] Would write image " ++ image ++ " directly to " ++ device)], .ok ())
  else
    ([Event.log .info ("Streaming image to " ++ device), Event.fsWrite device,
      Event.log .info "Image writing completed successfully."], .ok ())

/-- The outside world as seen by one run of the pipeline body (`main`
lines 153-177): device state, external-command results, and the contents
found on the freshly written image. -/
structure World where
  deviceExists : Bool
  mountedParts : List String
  lsblkOut : Except String String
  bootMountOk : Bool
  rootMountOk : Bool
  bootUmountOk : Bool
  rootUmountOk : Bool
  entries : Option (List String)
  ignContent : Option String
  imageHasUboot : Bool
  hostHasUboot : Bool
  ddOk : Bool
  partedOk : Bool
  resizeW : ResizeWorld

/-- Scratch mount-point paths; `main` creates them inside a
`tempfile.TemporaryDirectory`.  Creating that process-local scratch
directory is not an observable media write and is not traced. -/
def boot_mount_dir : String := "/tmp/arm-image-installer/boot"

/-- Scratch root mount point (see `boot_mount_dir`). -/
def root_mount_dir : String := "/tmp/arm-image-installer/root"

/-- The pipeline body of `main` (lines 153-177): device validation, image
write, partition lookup, then either the aggregate dry-run log or the
mounted configuration stage (boot mount outer, root mount inner, post-write
configs, bootloader configs, U-Boot install), then the optional resize
stage, and the final success log. -/
def run_pipeline (a : Args) (w : World) : List Event × Except String Unit :=
  let iot := is_iot_image a.image
  match validate_media_device a.media w.deviceExists w.mountedParts with
  | (ev1, .error e) => (ev1, .error e)
  | (ev1, .ok _) =>
    match stream_write_image a.image a.media a.dry_run with
    | (ev2, .error e) => (ev1 ++ ev2, .error e)
    | (ev2, .ok _) =>
      match find_partitions a.media w.lsblkOut with
      | (ev3, .error e) => (ev1 ++ ev2 ++ ev3, .error e)
      | (ev3, .ok bootRoot) =>
        let stage :=
          if a.dry_run then
            ([Event.log .info "[DRY-RUN] Would mount partitions and apply configurations."],
             Except.ok ())
          else
            mounted_partition bootRoot.1 boot_mount_dir false w.bootMountOk w.bootUmountOk
              (mounted_partition bootRoot.2 root_mount_dir false w.rootMountOk w.rootUmountOk
                (andThen (apply_post_write_configs root_mount_dir a iot false)
                  (andThen
                    (apply_bootloader_configs boot_mount_dir a iot false w.entries w.ignContent)
                    (install_uboot a.target a.media root_mount_dir false
                      w.imageHasUboot w.hostHasUboot w.ddOk))))
        match stage with
        | (ev4, .error e) => (ev1 ++ ev2 ++ ev3 ++ ev4, .error e)
        | (ev4, .ok _) =>
          let resizeStage :=
            if a.resizefs then
              andThen (grow_partition a.media a.dry_run w.partedOk)
                (resize_root_partition bootRoot.2 a.dry_run w.resizeW)
            else ([], Except.ok ())
          match resizeStage with
          | (ev5, .error e) => (ev1 ++ ev2 ++ ev3 ++ ev4 ++ ev5, .error e)
          | (ev5, .ok _) =>
            (ev1 ++ ev2 ++ ev3 ++ ev4 ++ ev5
               ++ [Event.log .info "Image installation completed successfully."], .ok ())

/-! ## Concrete run fixtures

A request for a pine64_plus board (which has a `BOARD_UBOOT_MAP` entry, so
a wet run performs a raw dd bootloader write) with an SSH key and a
filesystem resize, against a healthy world: the device exists, nothing on
it is mounted, lsblk reports a boot- and a root-labelled partition, the
entries directory holds one file, the U-Boot binary is present inside the
image, and every external tool succeeds. -/

/-- The fixture request in dry-run mode. -/
def fixtureArgsDry : Args :=
  Args.mk "Fedora-Minimal-40.raw" "/dev/sda" "pine64_plus" (some "/home/user/key.pub")
    false false true none none "wpa-psk" false none false false none true

/-- The fixture request in wet (non-dry-run) mode; identical otherwise. -/
def fixtureArgsWet : Args :=
  Args.mk "Fedora-Minimal-40.raw" "/dev/sda" "pine64_plus" (some "/home/user/key.pub")
    false false true none none "wpa-psk" false none false false none false

/-- The fixture world (see the section comment). -/
def fixtureWorld : World :=
  World.mk true [] (Except.ok "sda1 EFI\nsda2 boot\nsda3 rootfs") true true true true
    (some ["entry.conf"]) none true false true true
    (ResizeWorld.mk (Except.ok "ext4\n") (Except.ok "/mnt") true true true true)

/-- Whether an event is an unmount of the given mount point. -/
def isUnmountOf (mp : String) : Event → Bool
  | .unmount m => m == mp
  | _ => false

/-- Whether an event is a log message whose text mentions the given
fragment. -/
def logMentions (frag : String) : Event → Bool
  | .log _ msg => containsS msg frag
  | _ => false

/-! ## Facts about the string primitives -/

theorem splitColon_ne_nil (l : List Char) : splitColon l ≠ [] := by
  cases l with
  | nil => simp [splitColon]
  | cons c t =>
    simp only [splitColon]
    split
    · simp
    · cases splitColon t with
      | nil => simp
      | cons f fs => simp

theorem joinColon_splitColon (l : List Char) : joinColon (splitColon l) = l := by
  induction l with
  | nil => simp [splitColon, joinColon]
  | cons c t ih =>
    simp only [splitColon]
    split
    · rename_i hc
      cases h : splitColon t with
      | nil => exact absurd h (splitColon_ne_nil t)
      | cons f fs =>
        rw [h] at ih
        simp only [joinColon, List.nil_append]
        rw [ih, hc]
    · cases h : splitColon t with
      | nil => exact absurd h (splitColon_ne_nil t)
      | cons f fs =>
        rw [h] at ih
        cases fs with
        | nil =>
          simp only [joinColon] at ih
          simp only [joinColon]
          rw [ih]
        | cons g gs =>
          simp only [joinColon] at ih ⊢
          rw [List.cons_append, ih]

theorem mem_splitColon_no_colon (l : List Char) (f : List Char)
    (hf : f ∈ splitColon l) : ':' ∉ f := by
  induction l generalizing f with
  | nil =>
    simp [splitColon] at hf
    simp [hf]
  | cons c t ih =>
    simp only [splitColon] at hf
    by_cases hc : c = ':'
    · rw [if_pos hc] at hf
      rcases List.mem_cons.mp hf with hx | hx
      · simp [hx]
      · exact ih f hx
    · rw [if_neg hc] at hf
      cases hsp : splitColon t with
      | nil => exact absurd hsp (splitColon_ne_nil t)
      | cons g gs =>
        rw [hsp] at hf
        have hg : g ∈ splitColon t := by rw [hsp]; exact List.mem_cons_self g gs
        rcases List.mem_cons.mp hf with h1 | h1
        · subst h1
          intro hmem
          rcases List.mem_cons.mp hmem with h2 | h2
          · exact hc h2.symm
          · exact ih g hg h2
        · have hfm : f ∈ splitColon t := by rw [hsp]; exact List.mem_cons_of_mem g h1
          exact ih f hfm

theorem splitColon_no_colon (a : List Char) (ha : ':' ∉ a) : splitColon a = [a] := by
  induction a with
  | nil => simp [splitColon]
  | cons c t ih =>
    have hc : c ≠ ':' := fun h => ha (h ▸ List.mem_cons_self c t)
    have ht : ':' ∉ t := fun h => ha (List.mem_cons_of_mem c h)
    simp only [splitColon, if_neg hc, ih ht]

theorem splitColon_append_colon (a b : List Char) (ha : ':' ∉ a) :
    splitColon (a ++ ':' :: b) = a :: splitColon b := by
  induction a with
  | nil => simp [splitColon]
  | cons c t ih =>
    have hc : c ≠ ':' := fun h => ha (h ▸ List.mem_cons_self c t)
    have ht : ':' ∉ t := fun h => ha (List.mem_cons_of_mem c h)
    show splitColon (c :: (t ++ ':' :: b)) = (c :: t) :: splitColon b
    simp only [splitColon, if_neg hc]
    rw [ih ht]

theorem splitColon_joinColon (fs : List (List Char)) (hne : fs ≠ [])
    (hf : ∀ f ∈ fs, ':' ∉ f) : splitColon (joinColon fs) = fs := by
  induction fs with
  | nil => exact absurd rfl hne
  | cons f gs ih =>
    cases gs with
    | nil =>
      simp only [joinColon]
      exact splitColon_no_colon f (hf f (List.mem_cons_self f []))
    | cons g hs =>
      simp only [joinColon]
      rw [splitColon_append_colon f (joinColon (g :: hs))
            (hf f (List.mem_cons_self f (g :: hs)))]
      congr 1
      exact ih (by simp) (fun x hx => hf x (List.mem_cons_of_mem f hx))

theorem isPrefixOf_self_append (a b : List Char) : a.isPrefixOf (a ++ b) = true := by
  induction a with
  | nil => simp [List.isPrefixOf]
  | cons c t ih => simp [List.isPrefixOf, ih]

theorem eq_append_of_isPrefixOf (a : List Char) :
    ∀ b : List Char, a.isPrefixOf b = true → ∃ t, b = a ++ t := by
  induction a with
  | nil => exact fun b _ => ⟨b, rfl⟩
  | cons c a' ih =>
    intro b h
    cases b with
    | nil => simp [List.isPrefixOf] at h
    | cons d b' =>
      simp only [List.isPrefixOf, Bool.and_eq_true, beq_iff_eq] at h
      obtain ⟨t, ht⟩ := ih b' h.2
      refine ⟨t, ?_⟩
      rw [List.cons_append, ← ht, h.1]

/-! ## Helper lemmas shared across the claims -/

theorem removeRootPassLine_root_fields (line pw : List Char) (rest : List (List Char))
    (hsplit : splitColon line = "root".data :: pw :: rest) (hrest : rest ≠ []) :
    splitColon (removeRootPassLine line) = "root".data :: [] :: rest := by
  have hline : line = "root".data ++ ':' :: joinColon (pw :: rest) := by
    conv_lhs => rw [← joinColon_splitColon line]
    rw [hsplit]
    rfl
  have hpre : "root:".data.isPrefixOf line = true := by
    rw [hline]
    have h2 : "root".data ++ ':' :: joinColon (pw :: rest)
        = "root:".data ++ joinColon (pw :: rest) := rfl
    rw [h2]
    exact isPrefixOf_self_append _ _
  have hco : ':' ∉ ("root".data : List Char) := by decide
  have hfields : ∀ f ∈ rest, ':' ∉ f := by
    intro f hf
    apply mem_splitColon_no_colon line
    rw [hsplit]
    exact List.mem_cons_of_mem _ (List.mem_cons_of_mem _ hf)
  unfold removeRootPassLine
  rw [if_pos hpre, hsplit]
  have hdrop : ("root".data :: pw :: rest).drop 2 = rest := rfl
  rw [hdrop]
  have hshape : "root::".data ++ joinColon rest
      = "root".data ++ ':' :: (':' :: joinColon rest) := rfl
  rw [hshape, splitColon_append_colon _ _ hco]
  have hstep : splitColon (':' :: joinColon rest) = [] :: splitColon (joinColon rest) := rfl
  rw [hstep, splitColon_joinColon rest hrest hfields]

theorem ignition_skip_non_iot (bm url : String) (c : Option String) :
    ignition_step bm (some url) false false c =
      ([Event.log .warning "Ignition URL provided but image is not IoT. Ignition injection skipped."],
       c) := rfl

theorem ignition_marker_rewrite (bm url : String) :
    (ignition_step bm (some url) true false (some "true")).2
      = some ("true ignition.firstboot=1 ignition.config.url=" ++ url) := by
  show some (String.mk (("true ignition.firstboot=1 ignition.config.url=" ++ url).data
        ++ ([] : List Char)))
      = some ("true ignition.firstboot=1 ignition.config.url=" ++ url)
  rw [List.append_nil]

theorem mounted_partition_wet_trace (device mount_point : String) (bev : List Event)
    (bres : Except String Unit) (umountOk : Bool) :
    (mounted_partition device mount_point false true umountOk (bev, bres)).1
      = Event.mount device mount_point :: bev ++ [Event.unmount mount_point] := by
  cases umountOk <;> rfl

/-! ## The claims -/

/-- C1 (corrected): under dry-run, a pipeline run whose validation passes
(device checks pass, the image format is accepted, and the
partition-listing command succeeds) performs no filesystem write, no
mount, and no external mutating call — its only external call is the
read-only lsblk listing — and the process finishes with success; the
image write is logged as intent and the whole mount-and-configure stage is
announced by one aggregate intent log; dry-run filesystem type detection
returns the simulated "ext4".  The original claim's "every planned
mutating action is logged as intent" does not hold: `main` short-circuits
the mount/configure/bootloader stage under dry-run before those
components run, so their per-action intents (notably the bootloader dd
write) are never logged (see the counterexample). -/
theorem dry_run_pipeline_safety (a : Args) (w : World) (out : String)
    (hdry : a.dry_run = true)
    (hval : validate_media_device a.media w.deviceExists w.mountedParts = ([], Except.ok ()))
    (hfmt : formatOk a.image = true)
    (hls : w.lsblkOut = Except.ok out) :
    (run_pipeline a w).2 = Except.ok () ∧
    (run_pipeline a w).1.all (fun e => !e.isMutating) = true ∧
    Event.log .info ("[DRY-RUN] Would write image " ++ a.image ++ " directly to " ++ a.media)
      ∈ (run_pipeline a w).1 ∧
    Event.log .info "[DRY-RUN] Would mount partitions and apply configurations."
      ∈ (run_pipeline a w).1 ∧
    (∀ (dev : String) (blk : Except String String),
        (detect_filesystem_type dev true blk).2 = Except.ok "ext4") := by
  have hsw : stream_write_image a.image a.media true
      = ([Event.log .info ("[DRY-RUN] Would write image " ++ a.image
            ++ " directly to " ++ a.media)], Except.ok ()) := by
    simp only [stream_write_image, hfmt]
    rfl
  obtain ⟨pr, hfp⟩ : ∃ pr, find_partitions a.media w.lsblkOut
      = ([Event.extCall ["lsblk", "-ln", "-o", "NAME,PARTLABEL", a.media] false],
         Except.ok pr) := by
    rw [hls]
    rcases hp : parse_partitions out with ⟨b, r⟩
    cases b with
    | none => exact ⟨(a.media ++ "2", a.media ++ "3"), by simp [find_partitions, hp]⟩
    | some bp =>
      cases r with
      | none => exact ⟨(a.media ++ "2", a.media ++ "3"), by simp [find_partitions, hp]⟩
      | some rp => exact ⟨(bp, rp), by simp [find_partitions, hp]⟩
  refine ⟨?_, ?_, ?_, ?_, fun dev blk => rfl⟩ <;>
  · simp only [run_pipeline, hval, hdry, hsw, hfp]
    cases hrf : a.resizefs <;>
      simp [grow_partition, resize_root_partition, detect_filesystem_type, safe_run,
            andThen, thenLog, Event.isMutating, joinSpace]

/-- Witness for C1 at the concrete fixture request and world. -/
theorem dry_run_pipeline_safety_witness :
    (run_pipeline fixtureArgsDry fixtureWorld).2 = Except.ok () ∧
    (run_pipeline fixtureArgsDry fixtureWorld).1.all (fun e => !e.isMutating) = true :=
  ⟨(dry_run_pipeline_safety fixtureArgsDry fixtureWorld "sda1 EFI\nsda2 boot\nsda3 rootfs"
      rfl rfl rfl rfl).1,
   (dry_run_pipeline_safety fixtureArgsDry fixtureWorld "sda1 EFI\nsda2 boot\nsda3 rootfs"
      rfl rfl rfl rfl).2.1⟩

/-- C1 counterexample: for the fixture pine64_plus request, the wet run
plans (performs) a mutating dd bootloader write, yet no log message in
the corresponding dry run mentions dd or the U-Boot binary at all — the
planned bootloader write is not logged as intent, because `main` replaces
the whole mount/configure/bootloader stage with a single aggregate log
under dry-run.  The dry run still exits successfully. -/
theorem dry_run_logging_counterexample :
    ((run_pipeline fixtureArgsWet fixtureWorld).1.any
        (fun e => match e with
          | .extCall cmd m => m && cmd.contains "bs=1024"
          | _ => false)) = true ∧
    ((run_pipeline fixtureArgsDry fixtureWorld).1.all
        (fun e => !(logMentions "dd" e) && !(logMentions "u-boot" e)
            && !(logMentions "U-Boot" e))) = true ∧
    (run_pipeline fixtureArgsDry fixtureWorld).2 = Except.ok () :=
  ⟨by decide, by decide, rfl⟩

/-- C2 (corrected): for every body executed under the Mount Coordinator's
scoped mount (wet path, mount succeeded), the unmount call is invoked
exactly once, after the body, whether the body returned normally or
raised.  But if the unmount call itself fails, ordinary Python
try/finally semantics make its CalledProcessError the propagated error,
replacing any error raised by the body, and nothing is logged about the
unmount failure — the original claim's no-masking/logging part fails (see
the counterexample). -/
theorem mounted_partition_unmount_exactly_once
    (device mount_point : String) (bev : List Event) (bres : Except String Unit)
    (umountOk : Bool) (hb : bev.countP (isUnmountOf mount_point) = 0) :
    (mounted_partition device mount_point false true umountOk (bev, bres)).1
        = Event.mount device mount_point :: bev ++ [Event.unmount mount_point] ∧
    ((mounted_partition device mount_point false true umountOk (bev, bres)).1.countP
        (isUnmountOf mount_point)) = 1 ∧
    (mounted_partition device mount_point false true umountOk (bev, bres)).2
        = (if umountOk then bres
           else Except.error ("CalledProcessError: umount " ++ mount_point)) := by
  refine ⟨mounted_partition_wet_trace device mount_point bev bres umountOk, ?_, ?_⟩
  · rw [mounted_partition_wet_trace device mount_point bev bres umountOk]
    simp [List.countP_cons, List.countP_append, isUnmountOf, hb]
  · cases umountOk <;> rfl

/-- Witness for C2: a concrete successful body under a successful unmount
observes the unmount exactly once. -/
theorem mounted_partition_unmount_exactly_once_witness :
    ((mounted_partition "/dev/sdY2" "/mnt/boot" false true true
        ([Event.fsWrite "/mnt/boot/config.txt"], Except.ok ())).1.countP
      (isUnmountOf "/mnt/boot")) = 1 :=
  (mounted_partition_unmount_exactly_once "/dev/sdY2" "/mnt/boot"
      [Event.fsWrite "/mnt/boot/config.txt"] (Except.ok ()) true (by decide)).2.1

/-- C2 counterexample: a body that raises, combined with a failing
unmount: the propagated error is the unmount's CalledProcessError — the
body's error is replaced, not preserved — and the trace contains no log
event at all, so the unmount failure is not logged either. -/
theorem mounted_partition_masking_counterexample :
    (mounted_partition "/dev/sdZ3" "/mnt/root" false true false
        ([], Except.error "OSError: body failed")).2
      = Except.error "CalledProcessError: umount /mnt/root" ∧
    (mounted_partition "/dev/sdZ3" "/mnt/root" false true false
        ([], Except.error "OSError: body failed")).2
      ≠ Except.error "OSError: body failed" ∧
    ((mounted_partition "/dev/sdZ3" "/mnt/root" false true false
        ([], Except.error "OSError: body failed")).1.all (fun e => !e.isLog)) = true := by
  refine ⟨rfl, ?_, rfl⟩
  intro h
  have h2 : ("CalledProcessError: umount /mnt/root" : String) = "OSError: body failed" := by
    injection h
  exact absurd h2 (by decide)

/-- C3 (confirmed): the root-password removal rewrites exactly the line
whose account field is "root", emptying the password field and keeping all
remaining colon-delimited fields (stated for well-formed lines with at
least three fields, as every shadow entry has); any line whose first field
is not "root" is byte-identical to its input; and the spec's concrete
example line rewrites as stated. -/
theorem shadow_rewrite_root_only :
    (∀ (line pw : List Char) (rest : List (List Char)),
        splitColon line = "root".data :: pw :: rest → rest ≠ [] →
        splitColon (removeRootPassLine line) = "root".data :: [] :: rest) ∧
    (∀ line : List Char, (splitColon line).head? ≠ some "root".data →
        removeRootPassLine line = line) ∧
    removeRootPassLine "root:$6$abc:18000:0:99999:7:::".data
      = "root::18000:0:99999:7:::".data := by
  refine ⟨removeRootPassLine_root_fields, ?_, rfl⟩
  intro line hhead
  by_cases hp : "root:".data.isPrefixOf line = true
  · exfalso
    obtain ⟨t, ht⟩ := eq_append_of_isPrefixOf "root:".data line hp
    apply hhead
    have hsh : line = "root".data ++ ':' :: t := by rw [ht]; rfl
    rw [hsh, splitColon_append_colon _ _ (by decide)]
    rfl
  · unfold removeRootPassLine
    rw [if_neg hp]

/-- Witness for C3 at the spec's example shadow line. -/
theorem shadow_rewrite_root_only_witness :
    splitColon (removeRootPassLine "root:$6$abc:18000:0:99999:7:::".data)
      = "root".data :: [] ::
          ["18000".data, "0".data, "99999".data, "7".data, [], [], []] :=
  shadow_rewrite_root_only.1 "root:$6$abc:18000:0:99999:7:::".data "$6$abc".data
    ["18000".data, "0".data, "99999".data, "7".data, [], [], []] (by decide) (by decide)

/-- C4 (confirmed): non-options lines pass through the boot-entry rewrite
unchanged; options lines are mutated by exactly the four steps
strip-quiet, append-console, append-extra-args, append-sysrq, in that
order, on the stripped line; the console append is a no-op whenever
"console=" already occurs in the line it receives; and the spec's example
line behaves as stated for show-boot-messages alone and together with
console addition (for any board whose default console is
ttyAMA0,115200). -/
theorem options_line_rewrite_order :
    (∀ (sb ac : Bool) (ea : Option String) (sq : Bool) (t i : String) (line : List Char),
        "options".data.isPrefixOf line = false →
        process_entry_line sb ac ea sq t i line = line) ∧
    (∀ (sb ac : Bool) (ea : Option String) (sq : Bool) (t i : String) (line : List Char),
        "options".data.isPrefixOf line = true →
        process_entry_line sb ac ea sq t i line =
          sysrq_step sq (extra_args_step ea (add_console_step ac (get_default_console t i).data
            (strip_quiet_step sb (pyStrip line)))) ++ ['\n']) ∧
    (∀ (console l : List Char), containsSub l "console=".data = true →
        add_console_step true console l = l) ∧
    (∀ t i : String, process_entry_line true false none false t i
        "options root=/dev/mmcblk0p3 ro rhgb quiet".data
        = "options root=/dev/mmcblk0p3 ro\n".data) ∧
    (∀ t i : String, get_default_console t i = "ttyAMA0,115200" →
        process_entry_line true true none false t i
          "options root=/dev/mmcblk0p3 ro rhgb quiet".data
          = "options root=/dev/mmcblk0p3 ro console=ttyAMA0,115200\n".data) := by
  refine ⟨?_, ?_, ?_, fun t i => rfl, ?_⟩
  · intro sb ac ea sq t i line hp
    unfold process_entry_line
    rw [hp]
    simp
  · intro sb ac ea sq t i line hp
    unfold process_entry_line
    rw [hp]
    simp
  · intro console l h
    unfold add_console_step
    rw [h]
    simp
  · intro t i h
    unfold process_entry_line
    rw [h]
    rfl

/-- Witness for C4: the console-addition example at a concrete non-Pi
board, whose default console is ttyAMA0,115200. -/
theorem options_line_rewrite_order_witness :
    process_entry_line true true none false "pine64_plus" "Fedora-Minimal-40.raw"
      "options root=/dev/mmcblk0p3 ro rhgb quiet".data
      = "options root=/dev/mmcblk0p3 ro console=ttyAMA0,115200\n".data :=
  options_line_rewrite_order.2.2.2.2 "pine64_plus" "Fedora-Minimal-40.raw" rfl

/-- C5 (corrected): when the partition listing succeeds but yields no
boot-labelled or no root-labelled partition, `find_partitions` returns the
fixed fallback (media ++ "2", media ++ "3") — in particular
("/dev/sdX2", "/dev/sdX3") for "/dev/sdX" — but the original claim's
"a malformed device ... never a hard failure" does not hold: the lsblk
invocation runs with check=True, so when the listing command itself fails
the CalledProcessError propagates as a hard failure (see the
counterexample). -/
theorem find_partitions_fallback :
    (∀ (media out : String),
        (parse_partitions out).1 = none ∨ (parse_partitions out).2 = none →
        (find_partitions media (Except.ok out)).2 = Except.ok (media ++ "2", media ++ "3")) ∧
    (find_partitions "/dev/sdX" (Except.ok "sdX1 EFI\nsdX2\nsdX3 LVM")).2
        = Except.ok ("/dev/sdX2", "/dev/sdX3") ∧
    (∀ (media e : String), (find_partitions media (Except.error e)).2 = Except.error e) := by
  refine ⟨?_, rfl, fun media e => rfl⟩
  intro media out h
  rcases hp : parse_partitions out with ⟨b, r⟩
  rw [hp] at h
  cases b with
  | none => simp [find_partitions, hp]
  | some bp =>
    cases r with
    | none => simp [find_partitions, hp]
    | some rp =>
      rcases h with h | h <;> simp at h

/-- Witness for C5: a listing whose labels name neither boot nor root
falls back to partition indices 2 and 3. -/
theorem find_partitions_fallback_witness :
    (find_partitions "/dev/mmcblk0" (Except.ok "mmcblk0p1 EFI\nmmcblk0p2\nmmcblk0p3 LVM")).2
      = Except.ok ("/dev/mmcblk02", "/dev/mmcblk03") :=
  find_partitions_fallback.1 "/dev/mmcblk0" "mmcblk0p1 EFI\nmmcblk0p2\nmmcblk0p3 LVM"
    (by decide)

/-- C5 counterexample: a device on which the listing command itself fails
(non-zero lsblk exit, e.g. not a block device) produces a propagated
error — a hard failure — not the fallback pair the claim promises. -/
theorem find_partitions_error_counterexample :
    (find_partitions "/dev/sdX" (Except.error "lsblk: /dev/sdX: not a block device")).2
        = Except.error "lsblk: /dev/sdX: not a block device" ∧
    (find_partitions "/dev/sdX" (Except.error "lsblk: /dev/sdX: not a block device")).2
        ≠ Except.ok ("/dev/sdX2", "/dev/sdX3") :=
  ⟨rfl, fun h => Except.noConfusion h⟩

/-- C6 (confirmed): a board without a `BOARD_UBOOT_MAP` entry makes
`install_uboot` a logged (info-level, success-outcome) no-op; otherwise
the in-image location is preferred over the host location; if neither
candidate exists the run fails fatally with a remediation hint logged at
error level; and the performed write is a dd to the raw device with block
size 1024 and the configured seek count — byte offset 1024 * seek — with
conv=fsync. -/
theorem install_uboot_behaviour :
    (∀ (t m rm : String) (d ih hh dk : Bool),
        BOARD_UBOOT_MAP (uboot_normalize t) = none →
        install_uboot t m rm d ih hh dk =
          ([Event.log .info ("No U-Boot installation required for board "
                ++ uboot_normalize t ++ ". Skipping.")], Except.ok ())) ∧
    (∀ (t m rm : String) (e : UbootEntry) (hh : Bool),
        BOARD_UBOOT_MAP (uboot_normalize t) = some e →
        install_uboot t m rm false true hh true =
          ([Event.log .info ("Found U-Boot inside image at "
                ++ (rm ++ "/usr/share/uboot/" ++ uboot_normalize t ++ "/" ++ e.filename)),
            Event.log .info ("Writing U-Boot " ++ e.filename ++ " to " ++ m
                ++ " at offset seek=" ++ toString e.seek),
            Event.extCall (dd_cmd (rm ++ "/usr/share/uboot/" ++ uboot_normalize t ++ "/"
                ++ e.filename) m e.seek) true,
            Event.log .info "U-Boot written successfully."], Except.ok ())) ∧
    (∀ (t m rm : String) (e : UbootEntry),
        BOARD_UBOOT_MAP (uboot_normalize t) = some e →
        install_uboot t m rm false false true true =
          ([Event.log .info ("Found U-Boot on host at "
                ++ ("/usr/share/uboot/" ++ uboot_normalize t ++ "/" ++ e.filename)),
            Event.log .info ("Writing U-Boot " ++ e.filename ++ " to " ++ m
                ++ " at offset seek=" ++ toString e.seek),
            Event.extCall (dd_cmd ("/usr/share/uboot/" ++ uboot_normalize t ++ "/"
                ++ e.filename) m e.seek) true,
            Event.log .info "U-Boot written successfully."], Except.ok ())) ∧
    (∀ (t m rm : String) (e : UbootEntry) (dk : Bool),
        BOARD_UBOOT_MAP (uboot_normalize t) = some e →
        install_uboot t m rm false false false dk =
          ([Event.log .error ("Required U-Boot binary " ++ e.filename
                ++ " not found for board " ++ uboot_normalize t ++ "."),
            Event.log .error "Try: sudo dnf install uboot-images-armv8"],
           Except.error "SystemExit: 1")) := by
  refine ⟨?_, ?_, ?_, ?_⟩
  · intro t m rm d ih hh dk h
    simp only [install_uboot]
    rw [h]
  · intro t m rm e hh h
    simp only [install_uboot]
    rw [h]
    rfl
  · intro t m rm e h
    simp only [install_uboot]
    rw [h]
    rfl
  · intro t m rm e dk h
    simp only [install_uboot]
    rw [h]
    rfl

/-- Witness for C6: the alias rpi4 resolves to RaspberryPi4-64, which has
no bootloader entry, so installation is a logged no-op with success
outcome. -/
theorem install_uboot_behaviour_witness :
    install_uboot "rpi4" "/dev/sdc" "/tmp/arm-image-installer/root" false false false false =
      ([Event.log .info ("No U-Boot installation required for board "
            ++ uboot_normalize "rpi4" ++ ". Skipping.")], Except.ok ()) :=
  install_uboot_behaviour.1 "rpi4" "/dev/sdc" "/tmp/arm-image-installer/root"
    false false false false rfl

/-- C7 (corrected): validation raises `SystemExit` exactly when the loaded
board list is non-empty and the resolved name is absent from it; a missing
SUPPORTED-BOARDS file never fails and is logged as a warning; an existing
file whose parsed list is empty also never fails — but, contrary to the
original claim, that skip is silent: only the missing-file case logs a
warning (see the counterexample). -/
theorem validate_board_supported_list :
    (∀ (target : String) (file : Option String),
        (validate_board target file).2 = Except.error "SystemExit: 1" ↔
          ((load_supported_boards file).2.isEmpty = false ∧
           (load_supported_boards file).2.contains (resolve_board target) = false)) ∧
    (∀ target : String, (validate_board target none).2 = Except.ok () ∧
        Event.log .warning "SUPPORTED-BOARDS file not found. No board validation applied."
          ∈ (validate_board target none).1) ∧
    (∀ (target contents : String), parse_supported contents = [] →
        (validate_board target (some contents)).2 = Except.ok ()) := by
  refine ⟨?_, ?_, ?_⟩
  · intro target file
    simp only [validate_board]
    cases hE : (load_supported_boards file).2.isEmpty <;>
      cases hC : (load_supported_boards file).2.contains (resolve_board target) <;>
        simp
  · intro target
    exact ⟨rfl, by simp [validate_board, load_supported_boards]⟩
  · intro target contents h
    simp only [validate_board, load_supported_boards]
    rw [h]
    rfl

/-- Witness for C7: a file holding only a group header parses to an empty
list, and validation then passes any board name. -/
theorem validate_board_supported_list_witness :
    (validate_board "SomeUnknownBoard" (some "Generic Devices:")).2 = Except.ok () :=
  validate_board_supported_list.2.2 "SomeUnknownBoard" "Generic Devices:" (by decide)

/-- C7 counterexample: an existing but empty SUPPORTED-BOARDS file skips
validation (success for an arbitrary name) while logging nothing at all —
the claim's "skipped validation is logged as a warning" fails for the
empty-list case. -/
theorem validate_board_empty_silent_counterexample :
    (validate_board "FooBoard" (some "")).2 = Except.ok () ∧
    (validate_board "FooBoard" (some "")).1 = [] :=
  ⟨rfl, rfl⟩

/-- C8 (confirmed): the provisioning-URL injection applies only to the IoT
variant — otherwise it logs a warning and changes nothing, with the
enclosing configurator still succeeding; a marker file containing the
"true" marker is rewritten by appending the firstboot-enable and
config-URL tokens; and a missing marker file yields a warning and no
write, not a failure. -/
theorem ignition_injection_behaviour :
    (∀ (bm url : String) (c : Option String),
        ignition_step bm (some url) false false c =
          ([Event.log .warning
              "Ignition URL provided but image is not IoT. Ignition injection skipped."], c)) ∧
    (∀ (bm url : String),
        ignition_step bm (some url) true false none =
          ([Event.log .warning ("Ignition firstboot file " ++ (bm ++ "/ignition.firstboot")
                ++ " not found. Skipping ignition injection.")], none)) ∧
    (∀ (bm url : String),
        (ignition_step bm (some url) true false (some "true")).2 =
          some ("true ignition.firstboot=1 ignition.config.url=" ++ url)) ∧
    (∀ (bm : String) (a : Args) (iot dry : Bool) (entries : Option (List String))
        (c : Option String),
        (apply_bootloader_configs bm a iot dry entries c).2 = Except.ok ()) :=
  ⟨ignition_skip_non_iot, fun _ _ => rfl, ignition_marker_rewrite,
   fun _ _ _ _ _ _ => rfl⟩

/-- C9 (confirmed): board alias resolution is idempotent — no alias maps
to another alias, and unknown names resolve to themselves. -/
theorem resolve_board_idempotent (x : String) :
    resolve_board (resolve_board x) = resolve_board x := by
  unfold resolve_board
  split_ifs <;> simp_all

/-- C10 (confirmed): an image is classified IoT exactly when its basename
contains the case-sensitive substring "IoT" (a lowercase "iot" or an "IoT"
in a parent directory does not count), and that single classification
selects both the SSH authorized-keys directory (var/home/root/.ssh for IoT
versus root/.ssh) and whether the provisioning-URL injection applies. -/
theorem iot_classification_drives_paths :
    (is_iot_image "/images/Fedora-IoT-40.raw" = true ∧
     is_iot_image "/images/fedora-iot-40.raw" = false ∧
     is_iot_image "/IoT-images/Fedora-Workstation-40.raw" = false) ∧
    (∀ p : String, is_iot_image p = containsS (basename p) "IoT") ∧
    (∀ (root p key : String) (a : Args), a.addkey = some key →
        Event.fsWrite (ssh_dir_for root (is_iot_image p))
          ∈ (apply_post_write_configs root a (is_iot_image p) false).1) ∧
    (∀ root : String, ssh_dir_for root true = root ++ "/var/home/root/.ssh" ∧
        ssh_dir_for root false = root ++ "/root/.ssh") ∧
    (∀ (p bm url : String) (c : Option String), is_iot_image p = false →
        ignition_step bm (some url) (is_iot_image p) false c =
          ([Event.log .warning
              "Ignition URL provided but image is not IoT. Ignition injection skipped."], c)) ∧
    (∀ (p bm url : String), is_iot_image p = true →
        (ignition_step bm (some url) (is_iot_image p) false (some "true")).2 =
          some ("true ignition.firstboot=1 ignition.config.url=" ++ url)) := by
  refine ⟨⟨rfl, rfl, rfl⟩, fun p => rfl, ?_, fun root => ⟨rfl, rfl⟩, ?_, ?_⟩
  · intro root p key a h
    unfold apply_post_write_configs
    rw [h]
    simp
  · intro p bm url c h
    rw [h]
    exact ignition_skip_non_iot bm url c
  · intro p bm url h
    rw [h]
    exact ignition_marker_rewrite bm url

/-- Witness for C10: SSH key injection on a non-IoT image writes under
root/.ssh of the mounted root filesystem. -/
theorem iot_classification_drives_paths_witness :
    Event.fsWrite (ssh_dir_for "/mnt/root" (is_iot_image "/images/Fedora-Minimal-40.raw"))
      ∈ (apply_post_write_configs "/mnt/root" fixtureArgsWet
          (is_iot_image "/images/Fedora-Minimal-40.raw") false).1 :=
  iot_classification_drives_paths.2.2.1 "/mnt/root" "/images/Fedora-Minimal-40.raw"
    "/home/user/key.pub" fixtureArgsWet rfl

end ArmInstaller
